import Mathlib

/-!
Verification of `git_dependency_visualizer.py`.

The Python module queries a git repository through two subprocess calls
(`git rev-list <branch>` and `git log -n 1 --pretty=%P <commit>`), builds a
dependency graph mapping each commit hash to the set of its parent hashes,
serializes the graph to a Mermaid diagram file and invokes an external
renderer (`mmdc`) to produce an image, deleting the intermediate diagram
file on success.

The embedding models
  * Python string primitives (`strip`, `split('\n')`, `split()`, slicing,
    `os.path.splitext`) faithfully on Lean `String`;
  * the subprocess boundary as an oracle (`GitAdapter`, `Renderer`) giving,
    for each invocation, either the captured stdout or a failure diagnostic
    (a non-zero exit raising `subprocess.CalledProcessError`);
  * Python `set(...)` values as duplicate-free lists (`List.dedup` of the
    parsed tokens) with `List.toFinset` giving the set value;
  * the file system as a map from path to contents, threaded explicitly
    through the pipeline; a propagating Python exception is modelled by an
    `Except.error` result paired with the file-system state at the point
    the exception was raised.
-/

/-- Python whitespace characters recognised by `str.strip()` and
`str.split()` (the ASCII ones; git output is ASCII). -/
def pyIsSpace (c : Char) : Bool :=
  c = ' ' || c = '\t' || c = '\n' || c = '\r' || c = '\x0b' || c = '\x0c'

/-- Python `s.strip()`: remove leading and trailing whitespace. -/
def pyStrip (s : String) : String :=
  ⟨((s.data.dropWhile pyIsSpace).reverse.dropWhile pyIsSpace).reverse⟩

/-- Split a character list at every character satisfying `sep`, keeping
empty segments; `acc` holds the current segment reversed. -/
def splitCharsAux (sep : Char → Bool) : List Char → List Char → List String
  | [], acc => [⟨acc.reverse⟩]
  | c :: rest, acc =>
      if sep c then ⟨acc.reverse⟩ :: splitCharsAux sep rest []
      else splitCharsAux sep rest (c :: acc)

/-- Python `s.split('\n')`: split on each newline, keeping empty segments;
the empty string yields `[""]`. -/
def pySplitNL (s : String) : List String :=
  splitCharsAux (fun c => c = '\n') s.data []

/-- Python `s.split()` (no argument): split on whitespace runs, discarding
empty tokens. -/
def pySplitWS (s : String) : List String :=
  (splitCharsAux pyIsSpace s.data []).filter (fun t => t ≠ "")

/-- Python `s[:n]` for a string: the first `n` characters (all of them if
the string is shorter). -/
def pyTake (n : Nat) (s : String) : String :=
  ⟨s.data.take n⟩

/-- Python `set(l)` for a list of strings: a duplicate-free list
representing the set (iteration order is unspecified in Python; the
embedding fixes one deterministic order). -/
def pySet (l : List String) : List String :=
  l.dedup

/-- Python `os.path.splitext` (posix): split off the extension beginning at
the last dot of the basename, provided some earlier character of the
basename is not a dot (so leading dots never start an extension). -/
def pySplitext (p : String) : String × String :=
  let cs := p.data
  let revBase := cs.reverse.takeWhile (fun c => c ≠ '/')
  let revAfter := revBase.takeWhile (fun c => c ≠ '.')
  if revAfter.length < revBase.length &&
      (revBase.drop (revAfter.length + 1)).any (fun c => c ≠ '.') then
    let k := revAfter.length + 1
    (⟨cs.take (cs.length - k)⟩, ⟨cs.drop (cs.length - k)⟩)
  else
    (p, "")

/-- The subprocess boundary to git: for each branch name, the outcome of
`git rev-list <branch>` (captured stdout, or the diagnostic of a
`CalledProcessError` on non-zero exit), and likewise for each commit hash
the outcome of `git log -n 1 --pretty=%P <commit>`. -/
structure GitAdapter where
  revList : String → Except String String
  logParents : String → Except String String

/-- `GitDependencyVisualizer.get_branch_commits`: run `git rev-list`,
`strip` the output, split on newlines and collect into a set; on process
failure raise `RuntimeError` with a message naming the branch. -/
def get_branch_commits (a : GitAdapter) (branch_name : String) :
    Except String (List String) :=
  match a.revList branch_name with
  | .ok out => .ok (pySet (pySplitNL (pyStrip out)))
  | .error e =>
      .error ("Ошибка получения коммитов для ветки " ++ branch_name ++ ": " ++ e)

/-- `GitDependencyVisualizer.get_commit_parents`: run
`git log -n 1 --pretty=%P`, `strip` and whitespace-split the output into a
set of parent hashes; on process failure return the empty set. -/
def get_commit_parents (a : GitAdapter) (commit_hash : String) : List String :=
  match a.logParents commit_hash with
  | .ok out => pySet (pySplitWS (pyStrip out))
  | .error _ => []

/-- The dependency graph: the Python dict from commit hash to parent set,
as an association list in iteration order (keys duplicate-free). -/
abbrev Graph := List (String × List String)

/-- `GitDependencyVisualizer.build_dependency_graph`: the dict
comprehension `{commit: get_commit_parents(commit) for commit in commits}`
over `get_branch_commits(branch_name)`. -/
def build_dependency_graph (a : GitAdapter) (branch_name : String) :
    Except String Graph :=
  match get_branch_commits a branch_name with
  | .ok commits => .ok (commits.map (fun c => (c, get_commit_parents a c)))
  | .error e => .error e

/-- One Mermaid edge statement: `f"  {parent[:7]} --> {commit[:7]}"` for a
(commit, parent) pair. -/
def edgeLine (cp : String × String) : String :=
  "  " ++ pyTake 7 cp.2 ++ " --> " ++ pyTake 7 cp.1

/-- The (commit, parent) pairs of a graph in the nested-loop order of
`save_mermaid_graph` (`for commit, parents in graph.items(): for parent in
parents: ...`). -/
def mermaidEdges : Graph → List (String × String)
  | [] => []
  | (c, ps) :: rest => ps.map (fun p => (c, p)) ++ mermaidEdges rest

/-- The lines `save_mermaid_graph` writes: the header `graph TD` followed
by one edge statement per (commit, parent) pair. -/
def mermaidLines (g : Graph) : List String :=
  "graph TD" :: (mermaidEdges g).map edgeLine

/-- The full file content written by `save_mermaid_graph` (each line
terminated by a newline). -/
def mermaidContent (g : Graph) : String :=
  String.join ((mermaidLines g).map (fun l => l ++ "\n"))

/-- The file system: contents at each path, if a file exists there. -/
def FS := String → Option String

/-- Create or overwrite the file at `path` (Python `open(path, 'w')` plus
the writes). -/
def fsWrite (fs : FS) (path content : String) : FS :=
  fun p => if p = path then some content else fs p

/-- Delete the file at `path` (`os.remove`). -/
def fsRemove (fs : FS) (path : String) : FS :=
  fun p => if p = path then none else fs p

/-- `GitDependencyVisualizer.save_mermaid_graph`: open the target path for
writing (truncating any existing file) and write the header plus one edge
statement per (commit, parent) pair. -/
def save_mermaid_graph (g : Graph) (output_path : String) (fs : FS) : FS :=
  fsWrite fs output_path (mermaidContent g)

/-- The external renderer (`mmdc`): given the diagram path, the image path
and the current file system, either the produced image bytes or the
diagnostic of a non-zero exit. -/
structure Renderer where
  run : String → String → FS → Except String String

/-- `GitDependencyVisualizer.generate_png`: invoke the renderer; on
success the image file appears at `output_path`, on non-zero exit raise
`RuntimeError`. -/
def generate_png (r : Renderer) (mermaid_path output_path : String)
    (fs : FS) : Except String FS :=
  match r.run mermaid_path output_path fs with
  | .ok img => .ok (fsWrite fs output_path img)
  | .error e => .error ("Ошибка генерации PNG: " ++ e)

/-- The temporary diagram path derived on line 101 of the source:
`os.path.splitext(output_path)[0] + '.mmd'`. -/
def mermaidPathOf (output_path : String) : String :=
  (pySplitext output_path).1 ++ ".mmd"

/-- `GitDependencyVisualizer.visualize_dependencies`: build the graph,
derive the diagram path by replacing the image path's extension with
`.mmd`, write the diagram, render the image, then delete the diagram file.
A raised exception propagates as `Except.error` together with the file
system as it stood when the exception was raised. -/
def visualize_dependencies (a : GitAdapter) (r : Renderer)
    (branch_name output_path : String) (fs : FS) :
    Except String Unit × FS :=
  match build_dependency_graph a branch_name with
  | .error e => (.error e, fs)
  | .ok graph =>
    match generate_png r (mermaidPathOf output_path) output_path
        (save_mermaid_graph graph (mermaidPathOf output_path) fs) with
    | .error e =>
        (.error e, save_mermaid_graph graph (mermaidPathOf output_path) fs)
    | .ok fs2 => (.ok (), fsRemove fs2 (mermaidPathOf output_path))

/-! ## Concrete fixtures used by witnesses -/

/-- An empty file system. -/
def fs0 : FS := fun _ => none

/-- A two-commit repository: `aaa` has parent `bbb`, `bbb` is the root. -/
def adOk : GitAdapter :=
  { revList := fun _ => .ok "aaa\nbbb\n"
    logParents := fun c => .ok (if c = "bbb" then "" else "bbb") }

/-- A repository whose branch query fails (unknown revision). -/
def adBad : GitAdapter :=
  { revList := fun _ => .error "fatal: unknown revision"
    logParents := fun _ => .error "fatal" }

/-- A repository whose branch query yields empty output. -/
def adEmptyOut : GitAdapter :=
  { revList := fun _ => .ok ""
    logParents := fun _ => .ok "" }

/-- Behaviourally identical copy of `adOk` built from different literals. -/
def adOk' : GitAdapter :=
  { revList := fun _ => .ok ("aaa" ++ "\nbbb\n")
    logParents := fun c => .ok (if c = "bbb" then "" ++ "" else "bb" ++ "b") }

/-- A renderer that always succeeds, producing fixed image bytes. -/
def rOk : Renderer := { run := fun _ _ _ => .ok "PNGBYTES" }

/-- A renderer that always exits non-zero. -/
def rBad : Renderer := { run := fun _ _ _ => .error "mmdc exploded" }

/-- The graph `build_dependency_graph` constructs from `adOk`. -/
def gOk : Graph := [("aaa", ["bbb"]), ("bbb", [])]

/-! ## Helper lemmas -/

/-- `os.path.splitext` always splits the path: root plus extension
concatenate back to the original path. -/
theorem pySplitext_fst_append_snd (p : String) :
    (pySplitext p).1 ++ (pySplitext p).2 = p := by
  simp only [pySplitext]
  split
  · show String.mk (p.data.take _ ++ p.data.drop _) = p
    rw [List.take_append_drop]
  · show p ++ "" = p
    simp

/-- Characterisation of a successful `build_dependency_graph` run. -/
theorem build_dependency_graph_ok_iff (a : GitAdapter) (b : String) (g : Graph) :
    build_dependency_graph a b = .ok g ↔
      ∃ cs, get_branch_commits a b = .ok cs ∧
        g = cs.map (fun c => (c, get_commit_parents a c)) := by
  unfold build_dependency_graph
  cases h : get_branch_commits a b with
  | ok cs => simp [eq_comm]
  | error e => simp

/-- Every (commit, parent) pair of the serialized edge list takes its first
component from the graph's key list. -/
theorem mermaidEdges_fst_mem {g : Graph} {cp : String × String}
    (h : cp ∈ mermaidEdges g) : cp.1 ∈ g.map Prod.fst := by
  induction g with
  | nil => simp [mermaidEdges] at h
  | cons hd tl ih =>
    obtain ⟨c, ps⟩ := hd
    simp only [mermaidEdges, List.mem_append, List.mem_map] at h
    rcases h with ⟨p, _, rfl⟩ | h
    · simp
    · simp only [List.map_cons, List.mem_cons]
      exact Or.inr (ih h)

/-- With duplicate-free keys and duplicate-free parent sets, the edge list
contains each (commit, parent) pair exactly once. -/
theorem mermaidEdges_nodup {g : Graph}
    (hk : (g.map Prod.fst).Nodup) (hv : ∀ p ∈ g, p.2.Nodup) :
    (mermaidEdges g).Nodup := by
  induction g with
  | nil => exact List.nodup_nil
  | cons hd tl ih =>
    obtain ⟨c, ps⟩ := hd
    rw [List.map_cons, List.nodup_cons] at hk
    have hps : ps.Nodup := hv (c, ps) (by simp)
    refine List.Nodup.append ?_ (ih hk.2 ?_) ?_
    · exact hps.map fun x y hxy => congrArg Prod.snd hxy
    · intro p hp
      exact hv p (List.mem_cons_of_mem _ hp)
    · intro x hx1 hx2
      obtain ⟨p, _, rfl⟩ := List.mem_map.mp hx1
      exact hk.1 (mermaidEdges_fst_mem hx2)

/-- `mermaidEdges` distributes over concatenation of graphs. -/
theorem mermaidEdges_append (g₁ g₂ : Graph) :
    mermaidEdges (g₁ ++ g₂) = mermaidEdges g₁ ++ mermaidEdges g₂ := by
  induction g₁ with
  | nil => rfl
  | cons hd tl ih =>
    obtain ⟨c, ps⟩ := hd
    simp [mermaidEdges, ih]

/-! ## Claim theorems -/

/-- C1: for every branch name, `build_dependency_graph` returns a mapping
whose key collection is exactly the commit set returned by
`get_branch_commits` for that branch, and which maps each such commit to
exactly the set returned by `get_commit_parents` for that commit. -/
theorem build_graph_keys_and_values (a : GitAdapter) (b : String) (g : Graph)
    (h : build_dependency_graph a b = .ok g) :
    get_branch_commits a b = .ok (g.map Prod.fst) ∧
    ∀ p ∈ g, p.2 = get_commit_parents a p.1 := by
  obtain ⟨cs, hcs, rfl⟩ := (build_dependency_graph_ok_iff a b g).mp h
  constructor
  · rw [List.map_map]
    have hid : (Prod.fst ∘ fun c : String => (c, get_commit_parents a c)) = id := rfl
    rw [hid, List.map_id]
    exact hcs
  · intro p hp
    obtain ⟨c, _, rfl⟩ := List.mem_map.mp hp
    rfl

/-- Witness for C1 at the concrete two-commit repository `adOk`. -/
theorem build_graph_keys_and_values_witness :
    get_branch_commits adOk "master" = .ok (gOk.map Prod.fst) ∧
    ∀ p ∈ gOk, p.2 = get_commit_parents adOk p.1 :=
  build_graph_keys_and_values adOk "master" gOk rfl

/-- C4: for every commit identifier, if the metadata query process fails,
`get_commit_parents` returns the empty set (it is a total function, so the
failure is never surfaced), and the whole traversal still completes:
`build_dependency_graph` succeeds whenever the branch query succeeds. -/
theorem get_commit_parents_swallows_failure (a : GitAdapter) (c e : String)
    (h : a.logParents c = .error e) :
    get_commit_parents a c = [] ∧
    ∀ b out, a.revList b = .ok out →
      build_dependency_graph a b =
        .ok ((pySet (pySplitNL (pyStrip out))).map
          (fun x => (x, get_commit_parents a x))) := by
  constructor
  · unfold get_commit_parents
    rw [h]
  · intro b out hout
    unfold build_dependency_graph get_branch_commits
    rw [hout]

/-- Witness for C4: `adBad`'s parent query always fails, yet parents come
back empty and a traversal over `adEmptyOut` completes. -/
theorem get_commit_parents_swallows_failure_witness :
    get_commit_parents adBad "aaa" = [] ∧
    ∀ b out, adBad.revList b = .ok out →
      build_dependency_graph adBad b =
        .ok ((pySet (pySplitNL (pyStrip out))).map
          (fun x => (x, get_commit_parents adBad x))) :=
  get_commit_parents_swallows_failure adBad "aaa" "fatal" rfl

/-- In the mapping built by the dict comprehension, looking up a listed
commit finds the parents returned for it. -/
theorem lookup_map_pair {h : String → List String} {cs : List String}
    {c : String} (hc : c ∈ cs) :
    List.lookup c (cs.map (fun x => (x, h x))) = some (h c) := by
  induction cs with
  | nil => simp at hc
  | cons hd tl ih =>
    by_cases he : c = hd
    · subst he
      simp [List.lookup]
    · rcases List.mem_cons.mp hc with h1 | h1
      · exact absurd h1 he
      · have hbe : (c == hd) = false := beq_eq_false_iff_ne.mpr he
        simpa [List.lookup, hbe] using ih h1

/-- C8: a commit whose metadata query returns no parent tokens (a
repository root) is mapped by the built graph to the empty set — in
particular never to a set containing the commit itself or any other
token. -/
theorem root_commit_maps_to_empty_set (a : GitAdapter) (b c out : String)
    (g : Graph)
    (hg : build_dependency_graph a b = .ok g)
    (hq : a.logParents c = .ok out)
    (hroot : pySplitWS (pyStrip out) = [])
    (hc : c ∈ g.map Prod.fst) :
    List.lookup c g = some [] := by
  obtain ⟨cs, _, rfl⟩ := (build_dependency_graph_ok_iff a b g).mp hg
  have hcs : c ∈ cs := by
    rw [List.map_map] at hc
    have hid : (Prod.fst ∘ fun x : String => (x, get_commit_parents a x)) = id := rfl
    rw [hid, List.map_id] at hc
    exact hc
  rw [lookup_map_pair hcs]
  have hp : get_commit_parents a c = [] := by
    unfold get_commit_parents
    rw [hq]
    show pySet (pySplitWS (pyStrip out)) = []
    rw [hroot]
    rfl
  rw [hp]

/-- Witness for C8: in `adOk`, root commit `bbb` maps to the empty set. -/
theorem root_commit_maps_to_empty_set_witness :
    List.lookup "bbb" gOk = some [] :=
  root_commit_maps_to_empty_set adOk "master" "bbb" "" gOk rfl rfl rfl
    (by decide)

/-- C9: `build_dependency_graph` is deterministic in the adapter's
answers — two runs whose underlying queries return the same outputs yield
identical mappings (same keys, same parent set for each key). -/
theorem build_graph_deterministic (a₁ a₂ : GitAdapter) (b : String)
    (h1 : ∀ x, a₁.revList x = a₂.revList x)
    (h2 : ∀ x, a₁.logParents x = a₂.logParents x) :
    build_dependency_graph a₁ b = build_dependency_graph a₂ b := by
  have hbc : get_branch_commits a₁ b = get_branch_commits a₂ b := by
    unfold get_branch_commits
    rw [h1]
  have hp : ∀ c, get_commit_parents a₁ c = get_commit_parents a₂ c := by
    intro c
    unfold get_commit_parents
    rw [h2]
  unfold build_dependency_graph
  rw [hbc]
  cases get_branch_commits a₂ b with
  | ok cs => simp [hp]
  | error e => rfl

/-- Witness for C9: `adOk` and `adOk'` answer identically, so they build
the same graph. -/
theorem build_graph_deterministic_witness :
    build_dependency_graph adOk "master" = build_dependency_graph adOk' "master" :=
  build_graph_deterministic adOk adOk' "master" (fun _ => rfl)
    (fun x => by unfold adOk adOk'; by_cases h : x = "bbb" <;> simp [h])

/-- C3: if the underlying `git rev-list` process exits non-zero (for
instance because the branch does not exist), the whole invocation aborts
with an error whose message reports the branch name, and the file system
is left untouched — neither a diagram file nor an image file is
produced. -/
theorem visualize_query_error_aborts (a : GitAdapter) (r : Renderer)
    (branch_name output_path diag : String) (fs : FS)
    (h : a.revList branch_name = .error diag) :
    visualize_dependencies a r branch_name output_path fs =
      (.error ("Ошибка получения коммитов для ветки " ++ branch_name
        ++ ": " ++ diag), fs) ∧
    ∃ pre suf, (visualize_dependencies a r branch_name output_path fs).1 =
      .error (pre ++ branch_name ++ suf) := by
  have hres : visualize_dependencies a r branch_name output_path fs =
      (.error ("Ошибка получения коммитов для ветки " ++ branch_name
        ++ ": " ++ diag), fs) := by
    unfold visualize_dependencies build_dependency_graph get_branch_commits
    rw [h]
  refine ⟨hres, "Ошибка получения коммитов для ветки ", ": " ++ diag, ?_⟩
  rw [hres, String.append_assoc]

/-- Witness for C3 at the failing repository `adBad`. -/
theorem visualize_query_error_aborts_witness :
    visualize_dependencies adBad rOk "nope" "out.png" fs0 =
      (.error ("Ошибка получения коммитов для ветки " ++ "nope"
        ++ ": " ++ "fatal: unknown revision"), fs0) ∧
    ∃ pre suf, (visualize_dependencies adBad rOk "nope" "out.png" fs0).1 =
      .error (pre ++ "nope" ++ suf) :=
  visualize_query_error_aborts adBad rOk "nope" "out.png"
    "fatal: unknown revision" fs0 rfl

/-- C2: `save_mermaid_graph` overwrites the target path with a file whose
first line is the fixed header `graph TD` and whose remaining lines are
exactly one edge statement — two spaces, the parent's 7-character
abbreviation, ` --> `, the child's 7-character abbreviation — per
(commit, parent) pair of the graph (the edge list is duplicate-free when
keys and parent sets are). -/
theorem save_mermaid_graph_header_and_edges (g : Graph) (path : String)
    (fs : FS)
    (hk : (g.map Prod.fst).Nodup) (hv : ∀ p ∈ g, p.2.Nodup) :
    save_mermaid_graph g path fs path = some (mermaidContent g) ∧
    mermaidLines g =
      "graph TD" :: (mermaidEdges g).map
        (fun cp => "  " ++ pyTake 7 cp.2 ++ " --> " ++ pyTake 7 cp.1) ∧
    (mermaidEdges g).Nodup := by
  refine ⟨?_, rfl, mermaidEdges_nodup hk hv⟩
  simp [save_mermaid_graph, fsWrite]

/-- Witness for C2: writing `gOk` over a file system that already has a
file at the target path. -/
theorem save_mermaid_graph_header_and_edges_witness :
    save_mermaid_graph gOk "out.mmd" (fsWrite fs0 "out.mmd" "old") "out.mmd" =
      some (mermaidContent gOk) ∧
    mermaidLines gOk =
      "graph TD" :: (mermaidEdges gOk).map
        (fun cp => "  " ++ pyTake 7 cp.2 ++ " --> " ++ pyTake 7 cp.1) ∧
    (mermaidEdges gOk).Nodup :=
  save_mermaid_graph_header_and_edges gOk "out.mmd"
    (fsWrite fs0 "out.mmd" "old") (by decide) (by decide)

/-- A one-commit graph whose commit has no parents and is nobody's
parent. -/
def rootOnlyGraph : Graph := [("11111111", [])]

/-- C5 counterexample: the serialized diagram for a graph containing the
isolated commit `11111111` is just the header line — no character of the
commit identifier appears anywhere in the file, so there is no
node-per-commit statement. -/
theorem mermaid_no_node_statement :
    rootOnlyGraph.map Prod.fst = ["11111111"] ∧
    mermaidContent rootOnlyGraph = "graph TD\n" ∧
    ("graph TD\n".data.all (fun c => c ≠ '1')) = true :=
  ⟨rfl, rfl, by decide⟩

/-- C5 (amended): the serialized diagram is the header followed by one
edge statement per (commit, parent) pair and nothing else — edge-only, no
node-per-commit statements; appending a commit with no parents (that is no
other commit's parent) to the graph leaves the diagram unchanged. -/
theorem mermaid_edge_only (g : Graph) (c : String) :
    mermaidLines g = "graph TD" :: (mermaidEdges g).map edgeLine ∧
    mermaidLines (g ++ [(c, [])]) = mermaidLines g := by
  refine ⟨rfl, ?_⟩
  unfold mermaidLines
  rw [mermaidEdges_append]
  simp [mermaidEdges]

/-- C6 counterexample: when `git rev-list` succeeds with empty output, the
returned set is the singleton containing the empty string — the empty
string is an element, contradicting "the empty string is never an element
of the returned set". -/
theorem get_branch_commits_empty_output :
    get_branch_commits adEmptyOut "master" = .ok [""] ∧
    ("" ∈ ([""] : List String)) :=
  ⟨rfl, by decide⟩

/-- C6 (amended): `get_branch_commits` returns the set of newline-separated
segments of the whitespace-stripped output; whenever no segment is empty
this is exactly the set of non-empty lines, but when the stripped output
is empty the returned set is the singleton containing the empty string. -/
theorem get_branch_commits_splits_lines (a : GitAdapter) (b out : String)
    (h : a.revList b = .ok out) :
    get_branch_commits a b = .ok (pySet (pySplitNL (pyStrip out))) ∧
    ("" ∉ pySplitNL (pyStrip out) →
      get_branch_commits a b =
        .ok (pySet ((pySplitNL (pyStrip out)).filter (fun l => l ≠ "")))) ∧
    (pyStrip out = "" → get_branch_commits a b = .ok [""]) := by
  have h1 : get_branch_commits a b = .ok (pySet (pySplitNL (pyStrip out))) := by
    unfold get_branch_commits
    rw [h]
  refine ⟨h1, fun hne => ?_, fun hz => ?_⟩
  · have hfil : (pySplitNL (pyStrip out)).filter (fun l => l ≠ "") =
        pySplitNL (pyStrip out) := by
      apply List.filter_eq_self.mpr
      intro x hx
      have hx' : x ≠ "" := fun hxe => hne (hxe ▸ hx)
      simpa using hx'
    rw [h1, hfil]
  · rw [h1, hz]
    rfl

/-- Witness for C6 (amended) at the two-commit repository `adOk`. -/
theorem get_branch_commits_splits_lines_witness :
    get_branch_commits adOk "master" =
      .ok (pySet (pySplitNL (pyStrip "aaa\nbbb\n"))) ∧
    ("" ∉ pySplitNL (pyStrip "aaa\nbbb\n") →
      get_branch_commits adOk "master" =
        .ok (pySet ((pySplitNL (pyStrip "aaa\nbbb\n")).filter (fun l => l ≠ "")))) ∧
    (pyStrip "aaa\nbbb\n" = "" → get_branch_commits adOk "master" = .ok [""]) :=
  get_branch_commits_splits_lines adOk "master" "aaa\nbbb\n" rfl

/-- C7: on the success path `visualize_dependencies` deletes the temporary
diagram file (derived from the image path by replacing its extension), so
no residual diagram file remains; if rendering fails, the diagram file has
already been written and is not deleted — it still holds the serialized
graph. -/
theorem visualize_mermaid_file_lifecycle (a : GitAdapter) (r : Renderer)
    (branch_name output_path : String) (fs : FS) (g : Graph)
    (hg : build_dependency_graph a branch_name = .ok g) :
    (∀ img,
      r.run (mermaidPathOf output_path) output_path
          (save_mermaid_graph g (mermaidPathOf output_path) fs) = .ok img →
        (visualize_dependencies a r branch_name output_path fs).1 = .ok () ∧
        (visualize_dependencies a r branch_name output_path fs).2
          (mermaidPathOf output_path) = none) ∧
    (∀ e,
      r.run (mermaidPathOf output_path) output_path
          (save_mermaid_graph g (mermaidPathOf output_path) fs) = .error e →
        (visualize_dependencies a r branch_name output_path fs).1 =
          .error ("Ошибка генерации PNG: " ++ e) ∧
        (visualize_dependencies a r branch_name output_path fs).2
          (mermaidPathOf output_path) = some (mermaidContent g)) := by
  constructor
  · intro img hrun
    have hv : visualize_dependencies a r branch_name output_path fs =
        (.ok (), fsRemove
          (fsWrite (save_mermaid_graph g (mermaidPathOf output_path) fs)
            output_path img)
          (mermaidPathOf output_path)) := by
      simp only [visualize_dependencies, generate_png, hg, hrun]
    rw [hv]
    exact ⟨rfl, by simp [fsRemove]⟩
  · intro e hrun
    have hv : visualize_dependencies a r branch_name output_path fs =
        (.error ("Ошибка генерации PNG: " ++ e),
          save_mermaid_graph g (mermaidPathOf output_path) fs) := by
      simp only [visualize_dependencies, generate_png, hg, hrun]
    rw [hv]
    exact ⟨rfl, by simp [save_mermaid_graph, fsWrite]⟩

/-- Witness for C7: a successful end-to-end run over `adOk` leaves no file
at the derived diagram path. -/
theorem visualize_mermaid_file_lifecycle_witness :
    (visualize_dependencies adOk rOk "master" "out.png" fs0).1 = .ok () ∧
    (visualize_dependencies adOk rOk "master" "out.png" fs0).2
      (mermaidPathOf "out.png") = none :=
  ((visualize_mermaid_file_lifecycle adOk rOk "master" "out.png" fs0 gOk
    rfl).1) "PNGBYTES" rfl

/-- C10: when the image output path itself has extension `.mmd`, the
derived diagram path coincides with the image path, so a successful
`visualize_dependencies` run deletes the file at the requested output path
and leaves nothing there. -/
theorem visualize_mmd_output_self_deleted (a : GitAdapter) (r : Renderer)
    (branch_name output_path : String) (fs : FS)
    (hext : (pySplitext output_path).2 = ".mmd")
    (hok : (visualize_dependencies a r branch_name output_path fs).1 = .ok ()) :
    mermaidPathOf output_path = output_path ∧
    (visualize_dependencies a r branch_name output_path fs).2 output_path =
      none := by
  have hmp : mermaidPathOf output_path = output_path := by
    unfold mermaidPathOf
    rw [← hext]
    exact pySplitext_fst_append_snd output_path
  refine ⟨hmp, ?_⟩
  cases hb : build_dependency_graph a branch_name with
  | error e =>
    simp [visualize_dependencies, hb] at hok
  | ok g =>
    cases hgen : generate_png r (mermaidPathOf output_path) output_path
        (save_mermaid_graph g (mermaidPathOf output_path) fs) with
    | error e =>
      simp [visualize_dependencies, hb, hgen] at hok
    | ok fs2 =>
      simp only [visualize_dependencies, hb, hgen]
      show fsRemove fs2 (mermaidPathOf output_path) output_path = none
      rw [hmp]
      simp [fsRemove]

/-- Witness for C10: a successful run with output path `graph.mmd` leaves
no file at `graph.mmd`. -/
theorem visualize_mmd_output_self_deleted_witness :
    mermaidPathOf "graph.mmd" = "graph.mmd" ∧
    (visualize_dependencies adOk rOk "master" "graph.mmd" fs0).2 "graph.mmd" =
      none :=
  visualize_mmd_output_self_deleted adOk rOk "master" "graph.mmd" fs0 rfl rfl
